import Mathlib

/-
Shallow embedding of src/app.py (AI blog generator).

The core of the program is query_chat_api (app.py lines 22-112): a bounded
retry loop around one HTTP POST per attempt. We model the transport as a
function from the attempt index and the posted request to an observed
behaviour (an HTTP response, or one of the exceptions the code catches),
and the loop as structural recursion on the remaining iteration count.
Machine-level details that the code never touches (byte encodings, real
time) are abstracted: sleeps are recorded as the list of requested wait
durations, and st.warning calls are advisory text that the loop discards.
-/

namespace BlogApp

/-- A chat message, a Python dict with keys role and content. -/
structure Message where
  role : String
  content : String
deriving Repr, DecidableEq

/-- The HTTP headers built at app.py lines 36-39. -/
structure Headers where
  authorization : String
  contentType : String
deriving Repr, DecidableEq

/-- The JSON payload built at app.py lines 41-47. -/
structure Payload where
  messages : List Message
  model : String
  temperature : ℚ
  max_tokens : Nat
  stream : Bool
deriving Repr, DecidableEq

/-- One HTTP POST as issued by requests.post at app.py line 51. -/
structure Request where
  url : String
  headers : Headers
  payload : Payload
deriving Repr, DecidableEq

/-- The parsed JSON object of a response body, restricted to the fields app.py
reads: the choices array (each element abstracted to its message.content
string, the only part line 59 extracts) and the error field read at line 85
(abstracted to its string rendering). none models an absent key. -/
structure JsonBody where
  choices : Option (List String)
  error : Option String
deriving Repr, DecidableEq

/-- An HTTP response as app.py observes it: the status code, the result of
response.json() (none when the body is unparseable, in which case jsonErr
holds the str(e) of the raised decode exception), and response.text. -/
structure HttpResponse where
  status_code : Nat
  jsonBody : Option JsonBody
  jsonErr : String
  text : String
deriving Repr, DecidableEq

/-- Behaviour of the transport on one attempt: an HTTP response, or one of the
exception classes the code distinguishes (requests.exceptions.Timeout,
requests.exceptions.ConnectionError, or any other exception with its str(e)). -/
inductive AttemptBehaviour where
  | resp (r : HttpResponse)
  | timeoutExc
  | connectionExc
  | otherExc (msg : String)
deriving Repr, DecidableEq

/-- Python str.startswith, as a prefix test on the character sequence. -/
def pyStartsWith (s pre : String) : Bool :=
  pre.data.isPrefixOf s.data

/-- Python str.strip(): remove whitespace from both ends. -/
def pyStrip (s : String) : String :=
  ⟨((s.data.dropWhile Char.isWhitespace).reverse.dropWhile Char.isWhitespace).reverse⟩

/-- Outcome of one iteration of the retry loop: either return a string (ok is
true exactly for the success return at line 60), or emit a warning, sleep for
the given number of seconds, and continue with the next attempt. -/
inductive StepOutcome where
  | ret (ok : Bool) (s : String)
  | retry (wait : Nat) (warning : String)
deriving Repr, DecidableEq

/-- Lines 104-110 of app.py: the except Exception as e handler. msg is str(e). -/
def unexpectedClause (max_retries attempt : Nat) (msg : String) : StepOutcome :=
  if attempt < max_retries - 1 then
    .retry 2 ("Unexpected error: " ++ msg ++ ". Retrying... (Attempt " ++
      toString (attempt + 1) ++ "/" ++ toString max_retries ++ ")")
  else
    .ret false ("Error: " ++ msg)

/-- Lines 50-110 of app.py: the body of one iteration of the retry loop, given
the behaviour of the transport on this attempt. A response whose body fails to
parse as JSON makes response.json() raise (at line 55 or line 85); that
exception is neither Timeout nor ConnectionError, so it reaches the
except Exception handler at line 104. -/
def attemptStep (max_retries attempt : Nat) (b : AttemptBehaviour) : StepOutcome :=
  match b with
  | .resp response =>
      if response.status_code = 200 then
        match response.jsonBody with
        | some result =>
            match result.choices with
            | some (c :: _) => .ret true (pyStrip c)
            | _ => .ret false "Error: No response generated"
        | none => unexpectedClause max_retries attempt response.jsonErr
      else if response.status_code = 429 then
        if attempt < max_retries - 1 then
          .retry ((attempt + 1) * 3) ("Rate limit hit. Waiting " ++
            toString ((attempt + 1) * 3) ++ " seconds... (Attempt " ++
            toString (attempt + 1) ++ "/" ++ toString max_retries ++ ")")
        else
          .ret false "Error: Rate limit exceeded. Please wait a minute and try again."
      else if response.status_code = 401 then
        .ret false "Error: Invalid API token. Please check your Hugging Face API key."
      else if response.status_code = 503 then
        if attempt < max_retries - 1 then
          .retry 5 ("Model is loading... Retrying in 5 seconds (Attempt " ++
            toString (attempt + 1) ++ "/" ++ toString max_retries ++ ")")
        else
          .ret false "Error: Model is currently unavailable. Try a different model."
      else
        match response.jsonBody with
        | some result =>
            .ret false ("Error: API returned status " ++ toString response.status_code ++
              " - " ++ result.error.getD response.text)
        | none => unexpectedClause max_retries attempt response.jsonErr
  | .timeoutExc =>
      if attempt < max_retries - 1 then
        .retry 3 ("Request timed out. Retrying... (Attempt " ++
          toString (attempt + 1) ++ "/" ++ toString max_retries ++ ")")
      else
        .ret false "Error: Request timed out after multiple attempts."
  | .connectionExc =>
      if attempt < max_retries - 1 then
        .retry 3 ("Connection error. Retrying... (Attempt " ++
          toString (attempt + 1) ++ "/" ++ toString max_retries ++ ")")
      else
        .ret false "Error: Could not connect to Hugging Face API. Check your internet connection."
  | .otherExc msg => unexpectedClause max_retries attempt msg

/-- Observable outcome of one call to query_chat_api: the returned string,
whether it came from the success return at line 60, how many loop iterations
ran, the sequence of sleeps performed, the request posted on each attempt, and
whether the fallback return at line 112 (after the loop) was reached. -/
structure RunResult where
  result : String
  ok : Bool
  attemptsUsed : Nat
  waits : List Nat
  requests : List Request
  fellThrough : Bool
deriving Repr, DecidableEq

/-- Lines 49-112 of app.py: the retry loop, for attempt in range(max_retries).
fuel counts the remaining iterations (initially max_retries, so the invariant
is attempt + fuel = max_retries); waits accumulates sleeps in reverse. -/
def queryLoop (transport : Nat → Request → AttemptBehaviour) (req : Request)
    (max_retries : Nat) : Nat → Nat → List Nat → RunResult
  | 0, attempt, waits =>
      { result := "Error: All retry attempts failed.", ok := false,
        attemptsUsed := attempt, waits := waits.reverse,
        requests := List.replicate attempt req, fellThrough := true }
  | fuel + 1, attempt, waits =>
      match attemptStep max_retries attempt (transport attempt req) with
      | .ret ok s =>
          { result := s, ok := ok, attemptsUsed := attempt + 1,
            waits := waits.reverse, requests := List.replicate (attempt + 1) req,
            fellThrough := false }
      | .retry w _ =>
          queryLoop transport req max_retries fuel (attempt + 1) (w :: waits)

/-- Line 11 of app.py. -/
def API_URL : String := "https://router.huggingface.co/v1/chat/completions"

/-- Lines 36-47 of app.py: the headers and payload, built once before the loop. -/
def mkRequest (token : String) (messages : List Message) (model : String)
    (temperature : ℚ) (max_tokens : Nat) : Request :=
  { url := API_URL,
    headers := { authorization := "Bearer " ++ token,
                 contentType := "application/json" },
    payload := { messages := messages, model := model, temperature := temperature,
                 max_tokens := max_tokens, stream := false } }

/-- Lines 22-112 of app.py: query_chat_api. The Python defaults are
max_retries=3, temperature=0.7, max_tokens=500; call sites that rely on a
default pass it explicitly here. token stands for os.environ HF_TOKEN. -/
def query_chat_api (transport : Nat → Request → AttemptBehaviour) (token : String)
    (messages : List Message) (model : String) (max_retries : Nat)
    (temperature : ℚ) (max_tokens : Nat) : RunResult :=
  queryLoop transport (mkRequest token messages model temperature max_tokens)
    max_retries max_retries 0 []

/-- Lines 132-134 of app.py: the system message of blog generation. -/
def blogSystemMessage (blog_length : Nat) : Message :=
  { role := "system",
    content := "You are a professional blog writer. Write informative, engaging, and well-structured blog posts of approximately " ++
      toString blog_length ++ " words." }

/-- Lines 136-151 of app.py: the user message of blog generation. -/
def blogUserMessage (title keywords : String) (blog_length : Nat) : Message :=
  { role := "user",
    content := "Write a comprehensive blog post with the following specifications:\n\nTitle: " ++
      title ++ "\nKeywords to include: " ++ keywords ++ "\nTarget length: " ++
      toString blog_length ++
      " words\nTarget audience: beginners\n\nStructure your blog post with:\n1. An engaging introduction\n2. Well-organized main content with clear points\n3. A strong conclusion\n\nMake it informative, easy to understand, and engaging." }

/-- Lines 129-154 of app.py: generate_blog_content, calling query_chat_api with
temperature 0.7 and max_tokens = min(blog_length * 2, 2000). -/
def generate_blog_content (transport : Nat → Request → AttemptBehaviour)
    (token title keywords : String) (blog_length : Nat) (model : String) : RunResult :=
  query_chat_api transport token
    [blogSystemMessage blog_length, blogUserMessage title keywords blog_length]
    model 3 (0.7 : ℚ) (min (blog_length * 2) 2000)

/-- Lines 232 and 329 of app.py: the UI classifies a returned string as an
error exactly when it starts with Error. -/
def displaysAsError (s : String) : Bool :=
  pyStartsWith s "Error"

/-- The retryable transport behaviours named by the spec: HTTP 429, HTTP 503,
network timeout, connection failure, or any other unexpected fault. -/
def retryableBehaviour : AttemptBehaviour → Bool
  | .resp r => r.status_code == 429 || r.status_code == 503
  | .timeoutExc => true
  | .connectionExc => true
  | .otherExc _ => true

/-! General lemmas about the retry loop. -/

/-- A string extended on the right still starts with Error. -/
lemma pyStartsWith_append (a b : String) (h : pyStartsWith a "Error" = true) :
    pyStartsWith (a ++ b) "Error" = true := by
  unfold pyStartsWith at h ⊢
  rw [ List.isPrefixOf_iff_prefix] at h ⊢
  rw [String.data_append]
  exact h.trans (List.prefix_append a.data b.data)

/-- Unfolding: an iteration whose step returns ends the run. -/
lemma queryLoop_ret (transport : Nat → Request → AttemptBehaviour) (req : Request)
    (m fuel attempt : Nat) (waits : List Nat) (ok : Bool) (s : String)
    (h : attemptStep m attempt (transport attempt req) = .ret ok s) :
    queryLoop transport req m (fuel + 1) attempt waits =
      { result := s, ok := ok, attemptsUsed := attempt + 1, waits := waits.reverse,
        requests := List.replicate (attempt + 1) req, fellThrough := false } := by
  simp [queryLoop, h]

/-- Unfolding: an iteration whose step retries recurses with one more attempt. -/
lemma queryLoop_retry (transport : Nat → Request → AttemptBehaviour) (req : Request)
    (m fuel attempt : Nat) (waits : List Nat) (w : Nat) (wa : String)
    (h : attemptStep m attempt (transport attempt req) = .retry w wa) :
    queryLoop transport req m (fuel + 1) attempt waits =
      queryLoop transport req m fuel (attempt + 1) (w :: waits) := by
  simp [queryLoop, h]

/-- The requests log is the posted request, once per attempt used. -/
lemma queryLoop_requests (transport : Nat → Request → AttemptBehaviour) (req : Request)
    (m : Nat) : ∀ fuel attempt waits,
    (queryLoop transport req m fuel attempt waits).requests =
      List.replicate (queryLoop transport req m fuel attempt waits).attemptsUsed req := by
  intro fuel
  induction fuel with
  | zero => intro attempt waits; simp [queryLoop]
  | succ f ih =>
      intro attempt waits
      cases h : attemptStep m attempt (transport attempt req) with
      | ret ok s => rw [queryLoop_ret transport req m f attempt waits ok s h]
      | retry w wa => rw [queryLoop_retry transport req m f attempt waits w wa h]; exact ih _ _

/-- A run with fuel left uses at least one more attempt. -/
lemma queryLoop_attempt_lt (transport : Nat → Request → AttemptBehaviour) (req : Request)
    (m : Nat) : ∀ fuel attempt waits, 1 ≤ fuel →
    attempt + 1 ≤ (queryLoop transport req m fuel attempt waits).attemptsUsed := by
  intro fuel
  induction fuel with
  | zero => intro _ _ h; omega
  | succ f ih =>
      intro attempt waits _
      cases h : attemptStep m attempt (transport attempt req) with
      | ret ok s => rw [queryLoop_ret transport req m f attempt waits ok s h]
      | retry w wa =>
          rw [queryLoop_retry transport req m f attempt waits w wa h]
          cases f with
          | zero => simp [queryLoop]
          | succ f2 =>
              have := ih (attempt + 1) (w :: waits) (by omega)
              omega

/-- A step outcome is benign when it retries, returns the success value, or
returns a string starting with Error. -/
def stepOkOrError : StepOutcome → Bool
  | .ret ok s => ok || pyStartsWith s "Error"
  | .retry _ _ => true

/-- The unexpected-exception handler only retries or fails with an Error string. -/
lemma unexpectedClause_okOrError (m attempt : Nat) (msg : String) :
    stepOkOrError (unexpectedClause m attempt msg) = true := by
  unfold unexpectedClause
  split
  · rfl
  · simp only [stepOkOrError, Bool.false_or]
    exact pyStartsWith_append "Error: " msg (by decide)

/-- Every loop iteration retries, succeeds, or fails with an Error string. -/
lemma attemptStep_okOrError (m attempt : Nat) (b : AttemptBehaviour) :
    stepOkOrError (attemptStep m attempt b) = true := by
  cases b with
  | resp r =>
      simp only [attemptStep]
      split
      · split
        · split
          · rfl
          · decide
        · exact unexpectedClause_okOrError m attempt r.jsonErr
      · split
        · split
          · rfl
          · decide
        · split
          · decide
          · split
            · split
              · rfl
              · decide
            · split
              · simp only [stepOkOrError, Bool.false_or]
                exact pyStartsWith_append _ _ (pyStartsWith_append _ _
                  (pyStartsWith_append "Error: API returned status "
                    (toString r.status_code) (by decide)))
              · exact unexpectedClause_okOrError m attempt r.jsonErr
  | timeoutExc =>
      simp only [attemptStep]
      split
      · rfl
      · decide
  | connectionExc =>
      simp only [attemptStep]
      split
      · rfl
      · decide
  | otherExc msg => exact unexpectedClause_okOrError m attempt msg

/-- Every iteration that returns yields either the success value or a string
starting with Error. -/
lemma attemptStep_ret_ok_or_error (m attempt : Nat) (b : AttemptBehaviour)
    (ok : Bool) (s : String) (h : attemptStep m attempt b = .ret ok s) :
    ok = true ∨ pyStartsWith s "Error" = true := by
  have hb := attemptStep_okOrError m attempt b
  rw [h] at hb
  simpa only [stepOkOrError, Bool.or_eq_true] using hb

/-- On the last attempt the unexpected-exception handler returns. -/
lemma unexpectedClause_last (m attempt : Nat) (msg : String)
    (h : ¬ attempt < m - 1) :
    unexpectedClause m attempt msg = .ret false ("Error: " ++ msg) := by
  simp [unexpectedClause, h]

/-- On the last attempt, every behaviour makes the iteration return. -/
lemma attemptStep_last_ret (m attempt : Nat) (h : ¬ attempt < m - 1)
    (b : AttemptBehaviour) : ∃ ok s, attemptStep m attempt b = .ret ok s := by
  cases b with
  | resp r =>
      simp only [attemptStep]
      split
      · split
        · split
          · exact ⟨_, _, rfl⟩
          · exact ⟨_, _, rfl⟩
        · exact ⟨_, _, unexpectedClause_last m attempt r.jsonErr h⟩
      · split
        · exact ⟨_, _, rfl⟩
        · split
          · exact ⟨_, _, rfl⟩
          · split
            · exact ⟨_, _, rfl⟩
            · split
              · exact ⟨_, _, rfl⟩
              · exact ⟨_, _, unexpectedClause_last m attempt r.jsonErr h⟩
  | timeoutExc =>
      simp only [attemptStep]
      rw [if_neg h]; exact ⟨_, _, rfl⟩
  | connectionExc =>
      simp only [attemptStep]
      rw [if_neg h]; exact ⟨_, _, rfl⟩
  | otherExc msg => exact ⟨_, _, unexpectedClause_last m attempt msg h⟩

/-- A retrying iteration can only happen while attempts remain. -/
lemma attemptStep_retry_lt (m attempt : Nat) (b : AttemptBehaviour)
    (w : Nat) (wa : String) (h : attemptStep m attempt b = .retry w wa) :
    attempt < m - 1 := by
  by_contra hge
  obtain ⟨ok, s, hs⟩ := attemptStep_last_ret m attempt hge b
  rw [h] at hs
  exact absurd hs (by simp)

/-- When the loop runs at least one iteration it never reaches the fallback
return after the loop. -/
lemma queryLoop_no_fallthrough (transport : Nat → Request → AttemptBehaviour)
    (req : Request) (m : Nat) : ∀ fuel attempt waits, 1 ≤ fuel → m ≤ attempt + fuel →
    (queryLoop transport req m fuel attempt waits).fellThrough = false := by
  intro fuel
  induction fuel with
  | zero => intro _ _ h _; omega
  | succ f ih =>
      intro attempt waits _ hinv
      cases h : attemptStep m attempt (transport attempt req) with
      | ret ok s => rw [queryLoop_ret transport req m f attempt waits ok s h]
      | retry w wa =>
          rw [queryLoop_retry transport req m f attempt waits w wa h]
          have hlt := attemptStep_retry_lt m attempt (transport attempt req) w wa h
          exact ih (attempt + 1) (w :: waits) (by omega) (by omega)

/-- The final result is the success value or a string starting with Error. -/
lemma queryLoop_ok_or_error (transport : Nat → Request → AttemptBehaviour)
    (req : Request) (m : Nat) : ∀ fuel attempt waits,
    (queryLoop transport req m fuel attempt waits).ok = true ∨
      pyStartsWith (queryLoop transport req m fuel attempt waits).result "Error" = true := by
  intro fuel
  induction fuel with
  | zero =>
      intro attempt waits
      right
      show pyStartsWith "Error: All retry attempts failed." "Error" = true
      decide
  | succ f ih =>
      intro attempt waits
      cases h : attemptStep m attempt (transport attempt req) with
      | ret ok s =>
          rw [queryLoop_ret transport req m f attempt waits ok s h]
          exact attemptStep_ret_ok_or_error m attempt (transport attempt req) ok s h
      | retry w wa =>
          rw [queryLoop_retry transport req m f attempt waits w wa h]
          exact ih _ _

/-! Step equations for the individual status codes and exceptions. -/

/-- HTTP 200 with a non-empty choices array: success with the trimmed content. -/
lemma attemptStep_200_success (m attempt : Nat) (r : HttpResponse) (body : JsonBody)
    (c : String) (rest : List String) (h200 : r.status_code = 200)
    (hj : r.jsonBody = some body) (hc : body.choices = some (c :: rest)) :
    attemptStep m attempt (.resp r) = .ret true (pyStrip c) := by
  simp [attemptStep, h200, hj, hc]

/-- HTTP 200 with an empty or missing choices array. -/
lemma attemptStep_200_empty (m attempt : Nat) (r : HttpResponse) (body : JsonBody)
    (h200 : r.status_code = 200) (hj : r.jsonBody = some body)
    (hc : body.choices = none ∨ body.choices = some []) :
    attemptStep m attempt (.resp r) = .ret false "Error: No response generated" := by
  rcases hc with hc | hc <;> simp [attemptStep, h200, hj, hc]

/-- HTTP 429: retry with escalating wait while attempts remain, else fail. -/
lemma attemptStep_429 (m attempt : Nat) (r : HttpResponse)
    (h : r.status_code = 429) :
    attemptStep m attempt (.resp r) =
      if attempt < m - 1 then
        .retry ((attempt + 1) * 3) ("Rate limit hit. Waiting " ++
          toString ((attempt + 1) * 3) ++ " seconds... (Attempt " ++
          toString (attempt + 1) ++ "/" ++ toString m ++ ")")
      else
        .ret false "Error: Rate limit exceeded. Please wait a minute and try again." := by
  simp [attemptStep, h]

/-- HTTP 401: terminal failure. -/
lemma attemptStep_401 (m attempt : Nat) (r : HttpResponse)
    (h : r.status_code = 401) :
    attemptStep m attempt (.resp r) =
      .ret false "Error: Invalid API token. Please check your Hugging Face API key." := by
  simp [attemptStep, h]

/-- HTTP 503: retry with a 5 second wait while attempts remain, else fail. -/
lemma attemptStep_503 (m attempt : Nat) (r : HttpResponse)
    (h : r.status_code = 503) :
    attemptStep m attempt (.resp r) =
      if attempt < m - 1 then
        .retry 5 ("Model is loading... Retrying in 5 seconds (Attempt " ++
          toString (attempt + 1) ++ "/" ++ toString m ++ ")")
      else
        .ret false "Error: Model is currently unavailable. Try a different model." := by
  simp [attemptStep, h]

/-- Any other status whose body parses as JSON: terminal failure embedding the
status code and the error field (or response.text when the field is absent). -/
lemma attemptStep_other_json (m attempt : Nat) (r : HttpResponse) (body : JsonBody)
    (h200 : r.status_code ≠ 200) (h429 : r.status_code ≠ 429)
    (h401 : r.status_code ≠ 401) (h503 : r.status_code ≠ 503)
    (hj : r.jsonBody = some body) :
    attemptStep m attempt (.resp r) =
      .ret false ("Error: API returned status " ++ toString r.status_code ++
        " - " ++ body.error.getD r.text) := by
  simp [attemptStep, h200, h429, h401, h503, hj]

/-- Any other status whose body is unparseable: response.json() raises and the
iteration runs the unexpected-exception handler on the decode error. -/
lemma attemptStep_other_nojson (m attempt : Nat) (r : HttpResponse)
    (h200 : r.status_code ≠ 200) (h429 : r.status_code ≠ 429)
    (h401 : r.status_code ≠ 401) (h503 : r.status_code ≠ 503)
    (hj : r.jsonBody = none) :
    attemptStep m attempt (.resp r) = unexpectedClause m attempt r.jsonErr := by
  simp [attemptStep, h200, h429, h401, h503, hj]

/-! The shape of a run in which every attempt retries until the last. -/

/-- Auxiliary induction: if every remaining attempt before the last retries
with wait w(i) and the last attempt returns the failure s, the run uses all
max_retries attempts and performs exactly the waits w(attempt), w(attempt+1),
and so on between them. -/
lemma queryLoop_const_retry_aux (transport : Nat → Request → AttemptBehaviour)
    (req : Request) (m : Nat) (w : Nat → Nat) (s : String)
    (hretry : ∀ i, i < m - 1 → ∃ wa, attemptStep m i (transport i req) = .retry (w i) wa)
    (hlast : attemptStep m (m - 1) (transport (m - 1) req) = .ret false s) :
    ∀ f attempt waits, attempt + (f + 1) = m →
    queryLoop transport req m (f + 1) attempt waits =
      { result := s, ok := false, attemptsUsed := m,
        waits := waits.reverse ++ (List.range f).map (fun j => w (attempt + j)),
        requests := List.replicate m req, fellThrough := false } := by
  intro f
  induction f with
  | zero =>
      intro attempt waits hinv
      obtain rfl : attempt = m - 1 := by omega
      rw [queryLoop_ret transport req m 0 (m - 1) waits false s hlast]
      simp only [List.range_zero, List.map_nil, List.append_nil]
      have h1 : m - 1 + 1 = m := by omega
      rw [h1]
  | succ f ih =>
      intro attempt waits hinv
      have hlt : attempt < m - 1 := by omega
      obtain ⟨wa, hstep⟩ := hretry attempt hlt
      rw [queryLoop_retry transport req m (f + 1) attempt waits (w attempt) wa hstep]
      rw [ih (attempt + 1) (w attempt :: waits) (by omega)]
      have hw : (w attempt :: waits).reverse ++
          (List.range f).map (fun j => w (attempt + 1 + j)) =
          waits.reverse ++ (List.range (f + 1)).map (fun j => w (attempt + j)) := by
        rw [List.reverse_cons, List.append_assoc]
        congr 1
        rw [List.range_succ_eq_map, List.map_cons, List.map_map]
        simp only [Nat.add_zero, List.singleton_append]
        congr 1
        apply List.map_congr_left
        intro j _
        simp only [Function.comp_apply]
        congr 1
        omega
      rw [hw]

/-- A call in which every attempt before the last retries with wait w(i) and
the last attempt fails with s: all max_retries attempts run, with waits
w(0), w(1), ..., w(max_retries - 2) between them. -/
lemma query_chat_api_const_retry (transport : Nat → Request → AttemptBehaviour)
    (token : String) (messages : List Message) (model : String) (m : Nat)
    (temperature : ℚ) (max_tokens : Nat) (w : Nat → Nat) (s : String) (hm : 1 ≤ m)
    (hretry : ∀ i, i < m - 1 → ∃ wa,
      attemptStep m i (transport i (mkRequest token messages model temperature max_tokens)) =
        .retry (w i) wa)
    (hlast : attemptStep m (m - 1)
        (transport (m - 1) (mkRequest token messages model temperature max_tokens)) =
      .ret false s) :
    query_chat_api transport token messages model m temperature max_tokens =
      { result := s, ok := false, attemptsUsed := m,
        waits := (List.range (m - 1)).map w,
        requests := List.replicate m (mkRequest token messages model temperature max_tokens),
        fellThrough := false } := by
  obtain ⟨f, rfl⟩ : ∃ f, m = f + 1 := ⟨m - 1, by omega⟩
  unfold query_chat_api
  rw [queryLoop_const_retry_aux transport _ (f + 1) w s hretry hlast f 0 [] (by omega)]
  simp only [List.reverse_nil, List.nil_append, Nat.add_sub_cancel, Nat.zero_add]

/-- A call whose first attempt already returns. -/
lemma query_chat_api_first_ret (transport : Nat → Request → AttemptBehaviour)
    (token : String) (messages : List Message) (model : String) (m : Nat)
    (temperature : ℚ) (max_tokens : Nat) (ok : Bool) (s : String) (hm : 1 ≤ m)
    (h : attemptStep m 0 (transport 0 (mkRequest token messages model temperature max_tokens)) =
      .ret ok s) :
    query_chat_api transport token messages model m temperature max_tokens =
      { result := s, ok := ok, attemptsUsed := 1, waits := [],
        requests := [mkRequest token messages model temperature max_tokens],
        fellThrough := false } := by
  obtain ⟨f, rfl⟩ : ∃ f, m = f + 1 := ⟨m - 1, by omega⟩
  unfold query_chat_api
  rw [queryLoop_ret transport _ (f + 1) f 0 [] ok s h]
  simp

/-! Concrete transports used by witnesses. -/

/-- A transport that times out on every attempt. -/
def timeoutTransport : Nat → Request → AttemptBehaviour :=
  fun _ _ => .timeoutExc

/-- A transport answering HTTP 200 with one choice whose content is padded. -/
def successTransport : Nat → Request → AttemptBehaviour :=
  fun _ _ => .resp
    { status_code := 200,
      jsonBody := some { choices := some ["  hello world  "], error := none },
      jsonErr := "", text := "" }

/-- A transport answering HTTP 200 with an empty choices array. -/
def emptyChoicesTransport : Nat → Request → AttemptBehaviour :=
  fun _ _ => .resp
    { status_code := 200,
      jsonBody := some { choices := some [], error := none },
      jsonErr := "", text := "" }

/-- A transport answering HTTP 401 on every attempt. -/
def unauthorizedTransport : Nat → Request → AttemptBehaviour :=
  fun _ _ => .resp { status_code := 401, jsonBody := none, jsonErr := "", text := "" }

/-! The claims. -/

/-- C1: whenever the transport returns HTTP 200 with a JSON body whose choices
array is non-empty, query_chat_api returns the success outcome carrying exactly
choices[0].message.content with surrounding whitespace stripped, on the first
attempt; and when the choices array is empty or missing it returns the terminal
failure string "Error: No response generated" immediately, without retrying. -/
theorem claim1_http200_choices (transport : Nat → Request → AttemptBehaviour)
    (token : String) (messages : List Message) (model : String) (m : Nat)
    (temperature : ℚ) (max_tokens : Nat) (r : HttpResponse) (body : JsonBody)
    (hm : 1 ≤ m)
    (ht : transport 0 (mkRequest token messages model temperature max_tokens) = .resp r)
    (h200 : r.status_code = 200) (hj : r.jsonBody = some body) :
    (∀ c rest, body.choices = some (c :: rest) →
      query_chat_api transport token messages model m temperature max_tokens =
        { result := pyStrip c, ok := true, attemptsUsed := 1, waits := [],
          requests := [mkRequest token messages model temperature max_tokens],
          fellThrough := false }) ∧
    ((body.choices = none ∨ body.choices = some []) →
      query_chat_api transport token messages model m temperature max_tokens =
        { result := "Error: No response generated", ok := false, attemptsUsed := 1,
          waits := [],
          requests := [mkRequest token messages model temperature max_tokens],
          fellThrough := false }) := by
  constructor
  · intro c rest hc
    apply query_chat_api_first_ret transport token messages model m temperature
      max_tokens true (pyStrip c) hm
    rw [ht]
    exact attemptStep_200_success m 0 r body c rest h200 hj hc
  · intro hc
    apply query_chat_api_first_ret transport token messages model m temperature
      max_tokens false "Error: No response generated" hm
    rw [ht]
    exact attemptStep_200_empty m 0 r body h200 hj hc

/-- Witness for C1 at two concrete transports. -/
theorem claim1_http200_choices_witness :
    (query_chat_api successTransport "tk" [{ role := "user", content := "hi" }]
      "m" 3 (0.7 : ℚ) 500).result = "hello world" ∧
    (query_chat_api emptyChoicesTransport "tk" [{ role := "user", content := "hi" }]
      "m" 3 (0.7 : ℚ) 500).result = "Error: No response generated" := by
  constructor
  · have h := (claim1_http200_choices successTransport "tk"
      [{ role := "user", content := "hi" }] "m" 3 (0.7 : ℚ) 500
      { status_code := 200,
        jsonBody := some { choices := some ["  hello world  "], error := none },
        jsonErr := "", text := "" }
      { choices := some ["  hello world  "], error := none }
      (by decide) rfl rfl rfl).1 "  hello world  " [] rfl
    rw [h]
    decide
  · have h := (claim1_http200_choices emptyChoicesTransport "tk"
      [{ role := "user", content := "hi" }] "m" 3 (0.7 : ℚ) 500
      { status_code := 200,
        jsonBody := some { choices := some [], error := none },
        jsonErr := "", text := "" }
      { choices := some [], error := none }
      (by decide) rfl rfl rfl).2 (Or.inr rfl)
    rw [h]

/-- C3: an HTTP 401 on the first attempt makes query_chat_api return the
terminal invalid-credential failure after exactly one attempt, with no wait
and no retry, for every max_retries at least 1. -/
theorem claim3_http401_terminal (transport : Nat → Request → AttemptBehaviour)
    (token : String) (messages : List Message) (model : String) (m : Nat)
    (temperature : ℚ) (max_tokens : Nat) (r : HttpResponse) (hm : 1 ≤ m)
    (ht : transport 0 (mkRequest token messages model temperature max_tokens) = .resp r)
    (h401 : r.status_code = 401) :
    query_chat_api transport token messages model m temperature max_tokens =
      { result := "Error: Invalid API token. Please check your Hugging Face API key.",
        ok := false, attemptsUsed := 1, waits := [],
        requests := [mkRequest token messages model temperature max_tokens],
        fellThrough := false } := by
  apply query_chat_api_first_ret transport token messages model m temperature
    max_tokens false _ hm
  rw [ht]
  exact attemptStep_401 m 0 r h401

/-- Witness for C3 with max_retries = 5. -/
theorem claim3_http401_terminal_witness :
    (query_chat_api unauthorizedTransport "tk" [{ role := "user", content := "hi" }]
      "m" 5 (0.7 : ℚ) 500).attemptsUsed = 1 ∧
    (query_chat_api unauthorizedTransport "tk" [{ role := "user", content := "hi" }]
      "m" 5 (0.7 : ℚ) 500).waits = [] ∧
    (query_chat_api unauthorizedTransport "tk" [{ role := "user", content := "hi" }]
      "m" 5 (0.7 : ℚ) 500).result =
      "Error: Invalid API token. Please check your Hugging Face API key." := by
  have h := claim3_http401_terminal unauthorizedTransport "tk"
    [{ role := "user", content := "hi" }] "m" 5 (0.7 : ℚ) 500
    { status_code := 401, jsonBody := none, jsonErr := "", text := "" }
    (by decide) rfl rfl
  exact ⟨by rw [h], by rw [h], by rw [h]⟩

/-- C7: for every input and every transport behaviour the call resolves to a
value: either the success outcome, or a failure string starting with Error,
with no exception escaping. -/
theorem claim7_no_exception_escapes (transport : Nat → Request → AttemptBehaviour)
    (token : String) (messages : List Message) (model : String) (m : Nat)
    (temperature : ℚ) (max_tokens : Nat) :
    (query_chat_api transport token messages model m temperature max_tokens).ok = true ∨
    ((query_chat_api transport token messages model m temperature max_tokens).ok = false ∧
      pyStartsWith
        (query_chat_api transport token messages model m temperature max_tokens).result
        "Error" = true) := by
  cases hok : (query_chat_api transport token messages model m temperature max_tokens).ok with
  | true => exact Or.inl rfl
  | false =>
      refine Or.inr ⟨rfl, ?_⟩
      rcases queryLoop_ok_or_error transport
        (mkRequest token messages model temperature max_tokens) m m 0 [] with h | h
      · rw [show (queryLoop transport
            (mkRequest token messages model temperature max_tokens) m m 0 []) =
            query_chat_api transport token messages model m temperature max_tokens from rfl,
          hok] at h
        cases h
      · exact h

/-- C9: with max_retries at least 1, the fallback return after the loop is
never reached: every call returns from a branch inside the loop. -/
theorem claim9_fallback_unreachable (transport : Nat → Request → AttemptBehaviour)
    (token : String) (messages : List Message) (model : String) (m : Nat)
    (temperature : ℚ) (max_tokens : Nat) (hm : 1 ≤ m) :
    (query_chat_api transport token messages model m temperature max_tokens).fellThrough =
      false := by
  unfold query_chat_api
  exact queryLoop_no_fallthrough transport
    (mkRequest token messages model temperature max_tokens) m m 0 [] hm (by omega)

/-- Witness for C9. -/
theorem claim9_fallback_unreachable_witness :
    (query_chat_api timeoutTransport "tk" [{ role := "user", content := "hi" }]
      "m" 3 (0.7 : ℚ) 500).fellThrough = false :=
  claim9_fallback_unreachable timeoutTransport "tk"
    [{ role := "user", content := "hi" }] "m" 3 (0.7 : ℚ) 500 (by decide)

/-- C10: the headers and JSON payload are built once from the inputs before
the loop, and the request posted on every attempt of the same call is that
same value: one identical request per attempt used. -/
theorem claim10_request_constant (transport : Nat → Request → AttemptBehaviour)
    (token : String) (messages : List Message) (model : String) (m : Nat)
    (temperature : ℚ) (max_tokens : Nat) :
    ((query_chat_api transport token messages model m temperature max_tokens).requests.length =
      (query_chat_api transport token messages model m temperature max_tokens).attemptsUsed) ∧
    (∀ p ∈ (query_chat_api transport token messages model m temperature max_tokens).requests,
      p = mkRequest token messages model temperature max_tokens) := by
  have hreq := queryLoop_requests transport
    (mkRequest token messages model temperature max_tokens) m m 0 []
  constructor
  · unfold query_chat_api
    rw [hreq]
    exact List.length_replicate _ _
  · intro p hp
    unfold query_chat_api at hp
    rw [hreq] at hp
    exact List.eq_of_mem_replicate hp

/-- Witness for C10: on a concrete three-attempt run every logged request is
the one built from the inputs. -/
theorem claim10_request_constant_witness :
    ((query_chat_api timeoutTransport "tk" [{ role := "user", content := "hi" }]
      "m" 3 (0.7 : ℚ) 500).requests.length =
      (query_chat_api timeoutTransport "tk" [{ role := "user", content := "hi" }]
        "m" 3 (0.7 : ℚ) 500).attemptsUsed) ∧
    mkRequest "tk" [{ role := "user", content := "hi" }] "m" (0.7 : ℚ) 500 =
      mkRequest "tk" [{ role := "user", content := "hi" }] "m" (0.7 : ℚ) 500 := by
  have h := claim10_request_constant timeoutTransport "tk"
    [{ role := "user", content := "hi" }] "m" 3 (0.7 : ℚ) 500
  refine ⟨h.1, h.2 _ ?_⟩
  have hreq := queryLoop_requests timeoutTransport
    (mkRequest "tk" [{ role := "user", content := "hi" }] "m" (0.7 : ℚ) 500) 3 3 0 []
  have hpos := queryLoop_attempt_lt timeoutTransport
    (mkRequest "tk" [{ role := "user", content := "hi" }] "m" (0.7 : ℚ) 500) 3 3 0 []
    (by decide)
  unfold query_chat_api
  rw [hreq]
  exact List.mem_replicate.mpr ⟨by omega, rfl⟩

/-- A transport answering HTTP 429 on every attempt. -/
def rateLimitedTransport : Nat → Request → AttemptBehaviour :=
  fun _ _ => .resp { status_code := 429, jsonBody := none, jsonErr := "", text := "" }

/-- C4: when every attempt yields HTTP 429, the call fails with the rate-limit
message after exactly max_retries attempts, having waited (i+1)*3 seconds
after attempt i, that is the wait sequence 3, 6, 9, ... of length
max_retries - 1. -/
theorem claim4_rate_limit_exhaustion (transport : Nat → Request → AttemptBehaviour)
    (token : String) (messages : List Message) (model : String) (m : Nat)
    (temperature : ℚ) (max_tokens : Nat) (r : HttpResponse) (hm : 1 ≤ m)
    (ht : ∀ i p, transport i p = .resp r) (h429 : r.status_code = 429) :
    query_chat_api transport token messages model m temperature max_tokens =
      { result := "Error: Rate limit exceeded. Please wait a minute and try again.",
        ok := false, attemptsUsed := m,
        waits := (List.range (m - 1)).map (fun i => (i + 1) * 3),
        requests := List.replicate m (mkRequest token messages model temperature max_tokens),
        fellThrough := false } := by
  apply query_chat_api_const_retry transport token messages model m temperature max_tokens
    (fun i => (i + 1) * 3) _ hm
  · intro i hi
    rw [ht i _, attemptStep_429 m i r h429, if_pos hi]
    exact ⟨_, rfl⟩
  · rw [ht (m - 1) _, attemptStep_429 m (m - 1) r h429, if_neg (by omega)]

/-- Witness for C4 at max_retries = 3: three attempts, waits 3 then 6. -/
theorem claim4_rate_limit_exhaustion_witness :
    (query_chat_api rateLimitedTransport "tk" [{ role := "user", content := "hi" }]
      "m" 3 (0.7 : ℚ) 500).attemptsUsed = 3 ∧
    (query_chat_api rateLimitedTransport "tk" [{ role := "user", content := "hi" }]
      "m" 3 (0.7 : ℚ) 500).waits = [3, 6] ∧
    (query_chat_api rateLimitedTransport "tk" [{ role := "user", content := "hi" }]
      "m" 3 (0.7 : ℚ) 500).result =
      "Error: Rate limit exceeded. Please wait a minute and try again." := by
  have h := claim4_rate_limit_exhaustion rateLimitedTransport "tk"
    [{ role := "user", content := "hi" }] "m" 3 (0.7 : ℚ) 500
    { status_code := 429, jsonBody := none, jsonErr := "", text := "" }
    (by decide) (fun i p => rfl) rfl
  refine ⟨by rw [h], ?_, by rw [h]⟩
  rw [h]
  decide

/-- C5: with max_retries = 1, every retryable behaviour on the single attempt
(HTTP 429, HTTP 503, timeout, connection failure, or any other fault) yields
a terminal failure after that one attempt, with zero waits. -/
theorem claim5_single_attempt (transport : Nat → Request → AttemptBehaviour)
    (token : String) (messages : List Message) (model : String)
    (temperature : ℚ) (max_tokens : Nat)
    (hr : retryableBehaviour
      (transport 0 (mkRequest token messages model temperature max_tokens)) = true) :
    (query_chat_api transport token messages model 1 temperature max_tokens).attemptsUsed = 1 ∧
    (query_chat_api transport token messages model 1 temperature max_tokens).waits = [] ∧
    (query_chat_api transport token messages model 1 temperature max_tokens).ok = false ∧
    displaysAsError
      (query_chat_api transport token messages model 1 temperature max_tokens).result =
      true := by
  have hterm : ∃ s, attemptStep 1 0
      (transport 0 (mkRequest token messages model temperature max_tokens)) = .ret false s ∧
      pyStartsWith s "Error" = true := by
    cases hb : transport 0 (mkRequest token messages model temperature max_tokens) with
    | resp r =>
        rw [hb] at hr
        simp only [retryableBehaviour, Bool.or_eq_true, beq_iff_eq] at hr
        rcases hr with h4 | h5
        · refine ⟨"Error: Rate limit exceeded. Please wait a minute and try again.",
            ?_, by decide⟩
          rw [attemptStep_429 1 0 r h4, if_neg (by decide)]
        · refine ⟨"Error: Model is currently unavailable. Try a different model.",
            ?_, by decide⟩
          rw [attemptStep_503 1 0 r h5, if_neg (by decide)]
    | timeoutExc =>
        refine ⟨"Error: Request timed out after multiple attempts.", ?_, by decide⟩
        simp [attemptStep]
    | connectionExc =>
        refine ⟨"Error: Could not connect to Hugging Face API. Check your internet connection.",
          ?_, by decide⟩
        simp [attemptStep]
    | otherExc msg =>
        refine ⟨"Error: " ++ msg, ?_, pyStartsWith_append "Error: " msg (by decide)⟩
        show unexpectedClause 1 0 msg = .ret false ("Error: " ++ msg)
        exact unexpectedClause_last 1 0 msg (by decide)
  obtain ⟨s, hstep, hse⟩ := hterm
  have h := query_chat_api_first_ret transport token messages model 1 temperature
    max_tokens false s (by decide) hstep
  refine ⟨by rw [h], by rw [h], by rw [h], ?_⟩
  rw [h]
  exact hse

/-- Witness for C5 with a timeout on the single attempt. -/
theorem claim5_single_attempt_witness :
    (query_chat_api timeoutTransport "tk" [{ role := "user", content := "hi" }]
      "m" 1 (0.7 : ℚ) 500).attemptsUsed = 1 ∧
    (query_chat_api timeoutTransport "tk" [{ role := "user", content := "hi" }]
      "m" 1 (0.7 : ℚ) 500).waits = [] ∧
    (query_chat_api timeoutTransport "tk" [{ role := "user", content := "hi" }]
      "m" 1 (0.7 : ℚ) 500).ok = false ∧
    displaysAsError
      (query_chat_api timeoutTransport "tk" [{ role := "user", content := "hi" }]
        "m" 1 (0.7 : ℚ) 500).result = true :=
  claim5_single_attempt timeoutTransport "tk" [{ role := "user", content := "hi" }]
    "m" (0.7 : ℚ) 500 (by decide)

/-- C6: every request issued by generate_blog_content carries
max_tokens = min(2 * blog_length, 2000) and temperature 0.7, and at least one
request is issued. -/
theorem claim6_blog_call_params (transport : Nat → Request → AttemptBehaviour)
    (token title keywords : String) (blog_length : Nat) (model : String) :
    (∀ p ∈ (generate_blog_content transport token title keywords blog_length model).requests,
      p.payload.max_tokens = min (2 * blog_length) 2000 ∧
      p.payload.temperature = (0.7 : ℚ)) ∧
    1 ≤ (generate_blog_content transport token title keywords blog_length model).attemptsUsed ∧
    (generate_blog_content transport token title keywords blog_length model).requests.length =
      (generate_blog_content transport token title keywords blog_length model).attemptsUsed := by
  unfold generate_blog_content query_chat_api
  refine ⟨?_, ?_, ?_⟩
  · intro p hp
    rw [queryLoop_requests] at hp
    have hpe := List.eq_of_mem_replicate hp
    subst hpe
    constructor
    · simp only [mkRequest]
      omega
    · simp [mkRequest]
  · have := queryLoop_attempt_lt transport
      (mkRequest token [blogSystemMessage blog_length,
        blogUserMessage title keywords blog_length] model (0.7 : ℚ)
        (min (blog_length * 2) 2000)) 3 3 0 [] (by decide)
    omega
  · rw [queryLoop_requests]
    exact List.length_replicate _ _

/-- Witness for C6: word count 400 gives max_tokens 800 and word count 1200
gives max_tokens 2000. -/
theorem claim6_blog_call_params_witness :
    (mkRequest "tk" [blogSystemMessage 400, blogUserMessage "T" "kw" 400] "m" (0.7 : ℚ)
      (min (400 * 2) 2000)).payload.max_tokens = 800 ∧
    (mkRequest "tk" [blogSystemMessage 1200, blogUserMessage "T" "kw" 1200] "m" (0.7 : ℚ)
      (min (1200 * 2) 2000)).payload.max_tokens = 2000 := by
  constructor
  · have h := (claim6_blog_call_params timeoutTransport "tk" "T" "kw" 400 "m").1
      (mkRequest "tk" [blogSystemMessage 400, blogUserMessage "T" "kw" 400] "m" (0.7 : ℚ)
        (min (400 * 2) 2000)) ?_
    · rw [h.1]; decide
    · show mkRequest "tk" [blogSystemMessage 400, blogUserMessage "T" "kw" 400] "m" (0.7 : ℚ)
        (min (400 * 2) 2000) ∈
        (generate_blog_content timeoutTransport "tk" "T" "kw" 400 "m").requests
      unfold generate_blog_content query_chat_api
      rw [queryLoop_requests]
      have := queryLoop_attempt_lt timeoutTransport
        (mkRequest "tk" [blogSystemMessage 400, blogUserMessage "T" "kw" 400] "m" (0.7 : ℚ)
          (min (400 * 2) 2000)) 3 3 0 [] (by decide)
      exact List.mem_replicate.mpr ⟨by omega, rfl⟩
  · have h := (claim6_blog_call_params timeoutTransport "tk" "T" "kw" 1200 "m").1
      (mkRequest "tk" [blogSystemMessage 1200, blogUserMessage "T" "kw" 1200] "m" (0.7 : ℚ)
        (min (1200 * 2) 2000)) ?_
    · rw [h.1]; decide
    · show mkRequest "tk" [blogSystemMessage 1200, blogUserMessage "T" "kw" 1200] "m" (0.7 : ℚ)
        (min (1200 * 2) 2000) ∈
        (generate_blog_content timeoutTransport "tk" "T" "kw" 1200 "m").requests
      unfold generate_blog_content query_chat_api
      rw [queryLoop_requests]
      have := queryLoop_attempt_lt timeoutTransport
        (mkRequest "tk" [blogSystemMessage 1200, blogUserMessage "T" "kw" 1200] "m" (0.7 : ℚ)
          (min (1200 * 2) 2000)) 3 3 0 [] (by decide)
      exact List.mem_replicate.mpr ⟨by omega, rfl⟩

/-- A transport answering HTTP 200 whose generated content itself starts with
the word Error. -/
def errorContentTransport : Nat → Request → AttemptBehaviour :=
  fun _ _ => .resp
    { status_code := 200,
      jsonBody := some { choices := some ["Error: the model declined"], error := none },
      jsonErr := "", text := "" }

/-- C8: every failure outcome of query_chat_api is a string starting with
Error, which is exactly the test the UI applies to classify results; hence a
successful completion whose trimmed content itself starts with Error is
classified as a failure by the caller. -/
theorem claim8_error_prefix_display :
    (∀ (transport : Nat → Request → AttemptBehaviour) (token : String)
      (messages : List Message) (model : String) (m : Nat)
      (temperature : ℚ) (max_tokens : Nat),
      (query_chat_api transport token messages model m temperature max_tokens).ok = false →
      displaysAsError
        (query_chat_api transport token messages model m temperature max_tokens).result =
        true) ∧
    ((query_chat_api errorContentTransport "tk" [{ role := "user", content := "hi" }]
        "m" 3 (0.7 : ℚ) 500).ok = true ∧
      displaysAsError
        (query_chat_api errorContentTransport "tk" [{ role := "user", content := "hi" }]
          "m" 3 (0.7 : ℚ) 500).result = true) := by
  constructor
  · intro t token msgs model m temp mt hok
    rcases queryLoop_ok_or_error t (mkRequest token msgs model temp mt) m m 0 [] with h | h
    · rw [show queryLoop t (mkRequest token msgs model temp mt) m m 0 [] =
          query_chat_api t token msgs model m temp mt from rfl, hok] at h
      cases h
    · exact h
  · exact ⟨by decide, by decide⟩

/-- Witness for C8 on a concrete failing run. -/
theorem claim8_error_prefix_display_witness :
    displaysAsError
      (query_chat_api unauthorizedTransport "tk" [{ role := "user", content := "hi" }]
        "m" 3 (0.7 : ℚ) 500).result = true :=
  claim8_error_prefix_display.1 unauthorizedTransport "tk"
    [{ role := "user", content := "hi" }] "m" 3 (0.7 : ℚ) 500 (by decide)

/-- A transport answering a status outside 200/429/401/503 with a JSON error
payload. -/
def notFoundTransport : Nat → Request → AttemptBehaviour :=
  fun _ _ => .resp
    { status_code := 404,
      jsonBody := some { choices := none, error := some "Not Found" },
      jsonErr := "", text := "{}" }

/-- A transport answering HTTP 500 with a body that is not parseable JSON, so
response.json() raises a decode error. -/
def unparseable500Transport : Nat → Request → AttemptBehaviour :=
  fun _ _ => .resp
    { status_code := 500, jsonBody := none,
      jsonErr := "Expecting value: line 1 column 1 (char 0)",
      text := "<html>Internal Server Error</html>" }

/-- Counterexample to C2 as stated: an HTTP 500 whose body is unparseable JSON
is NOT returned immediately with the raw response body; response.json() raises
and the generic exception handler retries (waits 2 and 2), the final result
being the decode-error description, which embeds neither the status code nor
the raw body. -/
theorem claim2_other_status_counterexample :
    (query_chat_api unparseable500Transport "tk" [{ role := "user", content := "hi" }]
      "m" 3 (0.7 : ℚ) 500).attemptsUsed = 3 ∧
    (query_chat_api unparseable500Transport "tk" [{ role := "user", content := "hi" }]
      "m" 3 (0.7 : ℚ) 500).waits = [2, 2] ∧
    (query_chat_api unparseable500Transport "tk" [{ role := "user", content := "hi" }]
      "m" 3 (0.7 : ℚ) 500).result =
      "Error: Expecting value: line 1 column 1 (char 0)" := by
  refine ⟨by decide, by decide, by decide⟩

/-- C2 as amended: an attempt yielding a status other than 200, 429, 401 and
503 whose body parses as JSON returns immediately, on any attempt index and
without retrying, the failure embedding the status code and the service error
payload (response.text when the JSON has no error field); when that body is
unparseable, the decode exception instead reaches the generic handler, which
retries with wait 2 while attempts remain and finally fails with the decode
error description. -/
theorem claim2_other_status_amended (transport : Nat → Request → AttemptBehaviour)
    (token : String) (messages : List Message) (model : String) (m : Nat)
    (temperature : ℚ) (max_tokens : Nat) (r : HttpResponse) (body : JsonBody)
    (hm : 1 ≤ m) (h200 : r.status_code ≠ 200) (h429 : r.status_code ≠ 429)
    (h401 : r.status_code ≠ 401) (h503 : r.status_code ≠ 503) :
    (∀ attempt, r.jsonBody = some body →
      attemptStep m attempt (.resp r) =
        .ret false ("Error: API returned status " ++ toString r.status_code ++
          " - " ++ body.error.getD r.text)) ∧
    (transport 0 (mkRequest token messages model temperature max_tokens) = .resp r →
      r.jsonBody = some body →
      query_chat_api transport token messages model m temperature max_tokens =
        { result := "Error: API returned status " ++ toString r.status_code ++
            " - " ++ body.error.getD r.text,
          ok := false, attemptsUsed := 1, waits := [],
          requests := [mkRequest token messages model temperature max_tokens],
          fellThrough := false }) ∧
    ((∀ i p, transport i p = .resp r) → r.jsonBody = none →
      query_chat_api transport token messages model m temperature max_tokens =
        { result := "Error: " ++ r.jsonErr, ok := false, attemptsUsed := m,
          waits := List.replicate (m - 1) 2,
          requests := List.replicate m (mkRequest token messages model temperature max_tokens),
          fellThrough := false }) := by
  refine ⟨?_, ?_, ?_⟩
  · intro attempt hj
    exact attemptStep_other_json m attempt r body h200 h429 h401 h503 hj
  · intro ht hj
    apply query_chat_api_first_ret transport token messages model m temperature
      max_tokens false _ hm
    rw [ht]
    exact attemptStep_other_json m 0 r body h200 h429 h401 h503 hj
  · intro ht hj
    have hw : (List.range (m - 1)).map (fun _ => 2) = List.replicate (m - 1) 2 := by
      simp
    have h := query_chat_api_const_retry transport token messages model m temperature
      max_tokens (fun _ => 2) ("Error: " ++ r.jsonErr) hm ?_ ?_
    · rw [h, hw]
    · intro i hi
      rw [ht i _, attemptStep_other_nojson m i r h200 h429 h401 h503 hj]
      unfold unexpectedClause
      rw [if_pos hi]
      exact ⟨_, rfl⟩
    · rw [ht (m - 1) _, attemptStep_other_nojson m (m - 1) r h200 h429 h401 h503 hj]
      exact unexpectedClause_last m (m - 1) r.jsonErr (by omega)

/-- Witness for the amended C2 on two concrete transports. -/
theorem claim2_other_status_amended_witness :
    (query_chat_api notFoundTransport "tk" [{ role := "user", content := "hi" }]
      "m" 3 (0.7 : ℚ) 500).result = "Error: API returned status 404 - Not Found" ∧
    (query_chat_api unparseable500Transport "tk" [{ role := "user", content := "hi" }]
      "m" 3 (0.7 : ℚ) 500).waits = [2, 2] := by
  constructor
  · have h := (claim2_other_status_amended notFoundTransport "tk"
      [{ role := "user", content := "hi" }] "m" 3 (0.7 : ℚ) 500
      { status_code := 404,
        jsonBody := some { choices := none, error := some "Not Found" },
        jsonErr := "", text := "{}" }
      { choices := none, error := some "Not Found" }
      (by decide) (by decide) (by decide) (by decide) (by decide)).2.1 rfl rfl
    rw [h]
    decide
  · have h := (claim2_other_status_amended unparseable500Transport "tk"
      [{ role := "user", content := "hi" }] "m" 3 (0.7 : ℚ) 500
      { status_code := 500, jsonBody := none,
        jsonErr := "Expecting value: line 1 column 1 (char 0)",
        text := "<html>Internal Server Error</html>" }
      { choices := none, error := none }
      (by decide) (by decide) (by decide) (by decide) (by decide)).2.2
      (fun i p => rfl) rfl
    rw [h]
    decide

end BlogApp
